import Mathlib

/-!
Shallow embedding of `fairing/kubernetes/manager.py` (class `KubeManager`).

The embedding covers the two watch-driven state machines,
`KubeManager.get_service_external_endpoint` and `KubeManager.log`, together
with the CRD creation wrappers `create_tf_job` and `create_kfserving`.

Modelling conventions:
- Kubernetes snapshot objects become Lean structures whose optional fields are
  `Option`; Python attribute access on `None` and subscripting `None` surface
  as `PyError` values threaded through `Except`.
- The watch stream is a finite list of events followed by an ending marker:
  either the stream simply ends, or it raises a `ValueError` / `ApiException`
  at the watch boundary (`StreamEnd`).
- Observable behaviour of each operation is collected in an outcome record:
  the resolved URL, the `read_namespaced_pod_log` calls made, the chunks
  printed, the number of `release_conn` calls, the logger diagnostics, the
  label-selector string handed to `watch.Watch().stream`, and any Python
  exception escaping the method uncaught.
-/

/-- Python exceptions that arise from attribute or subscript access in the
watch loops, none of which are caught by the `except` clauses in the source. -/
inductive PyError where
  | attributeError (msg : String)
  | typeError (msg : String)
  | indexError (msg : String)
  | unicodeDecodeError (msg : String)
deriving DecidableEq, Repr

/-- Python `str()` of an optional string: `None` renders as `"None"`. -/
def formatVal : Option String → String
  | some s => s
  | none => "None"

/-- Python `a or b` on optional strings: `None` and the empty string are
falsy, so the right operand is returned exactly in those cases. -/
def pyOr (a b : Option String) : Option String :=
  match a with
  | some s => if s = "" then b else some s
  | none => b

/-- The tag of a watch event, `event['type']` in the source. -/
inductive EventType where
  | ADDED
  | MODIFIED
  | DELETED
deriving DecidableEq, Repr

/-- How the event stream terminates after its listed events: it ends quietly,
or it raises a `ValueError` or a `client.rest.ApiException` (the two exception
classes caught at the watch boundary in the source). -/
inductive StreamEnd where
  | ok
  | valueError (msg : String)
  | apiError (msg : String)
deriving DecidableEq, Repr

/-- Embeds the line
`label_selector_str = ', '.join("{}={}".format(k, v) for (k, v) in selectors.items())`
appearing identically in `get_service_external_endpoint` (line 105) and in
`log` (line 128): key=value pairs joined by comma-space, in the iteration
order of the mapping. -/
def labelSelectorStr (selectors : List (String × String)) : String :=
  String.intercalate ", " (selectors.map fun kv => kv.1 ++ "=" ++ kv.2)

/-- One entry of `svc.status.load_balancer.ingress`. -/
structure LoadBalancerIngress where
  ip : Option String
  hostname : Option String
deriving DecidableEq, Repr

/-- `svc.status.load_balancer`: the ingress list itself may be `None`. -/
structure LoadBalancerStatus where
  ingress : Option (List LoadBalancerIngress)
deriving DecidableEq, Repr

/-- `svc.status` as used by the endpoint watch. -/
structure ServiceStatus where
  load_balancer : LoadBalancerStatus
deriving DecidableEq, Repr

/-- A service snapshot (`event['object']`). -/
structure ServiceSnapshot where
  status : ServiceStatus
deriving DecidableEq, Repr

/-- A service watch event. -/
structure ServiceEvent where
  type : EventType
  object : ServiceSnapshot
deriving DecidableEq, Repr

/-- The service event stream: its events in arrival order, then its ending. -/
structure ServiceStream where
  events : List ServiceEvent
  ending : StreamEnd
deriving DecidableEq, Repr

/-- Everything observable about one run of `get_service_external_endpoint`. -/
structure DiscoveryOutcome where
  result : Option String
  diagnostics : List String
  streamOpened : Bool
  watchSelector : Option String
  uncaught : Option PyError
deriving DecidableEq, Repr

/-- The body of the `for event in w.stream(...)` loop of
`get_service_external_endpoint`: the first snapshot whose ingress list is
neither `None` nor empty resolves the URL from its first entry via
`ing[0].ip or ing[0].hostname`, and the function returns at once. -/
def svcLoop : List ServiceEvent → Option String
  | [] => none
  | e :: rest =>
      match e.object.status.load_balancer.ingress with
      | some (i0 :: _) =>
          some ("http://" ++ formatVal (pyOr i0.ip i0.hostname) ++ ":5000/predict")
      | _ => svcLoop rest

/-- Embeds `KubeManager.get_service_external_endpoint` (manager.py lines
104-124). With `selectors=None` the very first statement raises an
`AttributeError` before the watch is opened; otherwise the watch runs
`svcLoop`, and a `ValueError` or `ApiException` raised by the stream is
caught and logged with the `name` argument. -/
def KubeManager.get_service_external_endpoint (name ns : String)
    (selectors : Option (List (String × String))) (stream : ServiceStream) :
    DiscoveryOutcome :=
  match selectors with
  | none =>
      { result := none, diagnostics := [], streamOpened := false,
        watchSelector := none,
        uncaught := some (PyError.attributeError
          "NoneType object has no attribute items") }
  | some sel =>
      let lss := labelSelectorStr sel
      match svcLoop stream.events with
      | some url =>
          { result := some url,
            diagnostics := ["Waiting for prediction endpoint to come up..."],
            streamOpened := true, watchSelector := some lss, uncaught := none }
      | none =>
          match stream.ending with
          | StreamEnd.ok =>
              { result := none,
                diagnostics := ["Waiting for prediction endpoint to come up..."],
                streamOpened := true, watchSelector := some lss, uncaught := none }
          | StreamEnd.valueError m =>
              { result := none,
                diagnostics := ["Waiting for prediction endpoint to come up...",
                  "error getting status for " ++ name ++ " " ++ m],
                streamOpened := true, watchSelector := some lss, uncaught := none }
          | StreamEnd.apiError m =>
              { result := none,
                diagnostics := ["Waiting for prediction endpoint to come up...",
                  "error getting status for " ++ name ++ " " ++ m],
                streamOpened := true, watchSelector := some lss, uncaught := none }

/-- A service event is ready when its ingress list is present and non-empty,
the guard `ing is not None and len(ing) > 0` of the source. -/
def ingressReady (e : ServiceEvent) : Bool :=
  match e.object.status.load_balancer.ingress with
  | some (_ :: _) => true
  | _ => false

lemma svcLoop_eq_none (events : List ServiceEvent)
    (h : ∀ e ∈ events, ingressReady e = false) : svcLoop events = none := by
  induction events with
  | nil => rfl
  | cons e rest ih =>
      have he := h e (List.mem_cons_self e rest)
      unfold ingressReady at he
      unfold svcLoop
      cases hing : e.object.status.load_balancer.ingress with
      | none => exact ih fun x hx => h x (List.mem_cons_of_mem _ hx)
      | some l =>
          cases l with
          | nil => exact ih fun x hx => h x (List.mem_cons_of_mem _ hx)
          | cons i0 tl =>
              rw [hing] at he
              simp at he

lemma svcLoop_append_first (pre : List ServiceEvent) (e : ServiceEvent)
    (post : List ServiceEvent) (i0 : LoadBalancerIngress)
    (rest : List LoadBalancerIngress)
    (hpre : ∀ x ∈ pre, ingressReady x = false)
    (hing : e.object.status.load_balancer.ingress = some (i0 :: rest)) :
    svcLoop (pre ++ e :: post)
      = some ("http://" ++ formatVal (pyOr i0.ip i0.hostname) ++ ":5000/predict") := by
  induction pre with
  | nil => simp [svcLoop, hing]
  | cons p ps ih =>
      have hp := hpre p (List.mem_cons_self p ps)
      unfold ingressReady at hp
      have hrec := ih fun x hx => hpre x (List.mem_cons_of_mem _ hx)
      show svcLoop (p :: (ps ++ e :: post)) = _
      unfold svcLoop
      cases hping : p.object.status.load_balancer.ingress with
      | none => exact hrec
      | some l =>
          cases l with
          | nil => exact hrec
          | cons j tl =>
              rw [hping] at hp
              simp at hp

/-- `container_statuses[0].state.terminated`: reason and message fields. -/
structure ContainerStateTerminated where
  reason : Option String
  message : Option String
deriving DecidableEq, Repr

/-- `container_statuses[0].state`: the waiting field is truthy exactly when a
waiting state object is present, the terminated field likewise. The waiting
state is represented by its reason string. -/
structure ContainerState where
  waiting : Option String
  terminated : Option ContainerStateTerminated
deriving DecidableEq, Repr

/-- One entry of `pod.status.container_statuses`. -/
structure ContainerStatus where
  ready : Bool
  state : ContainerState
deriving DecidableEq, Repr

/-- `pod.status`: the phase string and the possibly absent status list. -/
structure PodStatus where
  phase : String
  container_statuses : Option (List ContainerStatus)
deriving DecidableEq, Repr

/-- `pod.metadata` as used by the log watch. -/
structure PodMetadata where
  name : String
deriving DecidableEq, Repr

/-- A pod snapshot (`event['object']`). -/
structure Pod where
  metadata : PodMetadata
  status : PodStatus
deriving DecidableEq, Repr

/-- A pod watch event. -/
structure PodEvent where
  type : EventType
  object : Pod
deriving DecidableEq, Repr

/-- The pod event stream: its events in arrival order, then its ending. -/
structure PodStream where
  events : List PodEvent
  ending : StreamEnd
deriving DecidableEq, Repr

/-- One call to `v1.read_namespaced_pod_log(...)`: the arguments the source
passes that vary per call site. The pod name comes from the event snapshot,
never from the `name` argument of `log`. -/
structure OpenCall where
  podName : String
  ns : String
  follow : Bool
  container : String
deriving DecidableEq, Repr

/-- Python `pod.status.container_statuses[0]`: subscripting `None` raises a
`TypeError`, subscripting an empty list raises an `IndexError`. -/
def containerStatus0 (p : Pod) : Except PyError ContainerStatus :=
  match p.status.container_statuses with
  | none => Except.error (PyError.typeError "NoneType object is not subscriptable")
  | some [] => Except.error (PyError.indexError "list index out of range")
  | some (c :: _) => Except.ok c

/-- The first container status when present, used to state wellformedness. -/
def firstStatus? (p : Pod) : Option ContainerStatus :=
  match p.status.container_statuses with
  | some (c :: _) => some c
  | _ => none

/-- The condition
`(pod.status.phase == 'Running' and pod.status.container_statuses[0].ready) or pod.status.phase == 'Succeeded'`
with Python short-circuit evaluation: the subscript runs only when the phase
is Running. -/
def runningReadyOrSucceeded (pod : Pod) : Except PyError Bool :=
  if pod.status.phase == "Running" then
    match containerStatus0 pod with
    | Except.error e => Except.error e
    | Except.ok c =>
        if c.ready then Except.ok true
        else Except.ok (pod.status.phase == "Succeeded")
  else Except.ok (pod.status.phase == "Succeeded")

/-- The condition
`event['type'] == 'DELETED' or pod.status.phase == 'Failed' or pod.status.container_statuses[0].state.waiting`
with Python short-circuit evaluation: the subscript runs only when the event
is not DELETED and the phase is not Failed. -/
def deletedFailedOrWaiting (ty : EventType) (pod : Pod) : Except PyError Bool :=
  if ty = EventType.DELETED then Except.ok true
  else if pod.status.phase == "Failed" then Except.ok true
  else
    match containerStatus0 pod with
    | Except.error e => Except.error e
    | Except.ok c => Except.ok c.state.waiting.isSome

/-- What one iteration of the `log` watch loop decides for its event. -/
inductive StepAction where
  | stay (diag : Option String)
  | openEligible (podName : String) (ready : Bool)
  | openFailed (podName : String) (reason message : Option String)
deriving DecidableEq, Repr

/-- The body of the `for event in w.stream(...)` loop of `KubeManager.log`
(manager.py lines 135-169), one event at a time:
- phase Pending: warn and continue;
- (Running and first status ready) or Succeeded: log the ready flag, then
  call `read_namespaced_pod_log` and break;
- DELETED, or phase Failed, or first status in a waiting state: build the
  failure diagnostic from `state.terminated.reason` and
  `state.terminated.message` — an `AttributeError` when no terminated state is
  present — then call `read_namespaced_pod_log` and break;
- anything else: continue silently. -/
def logStep (event : PodEvent) : Except PyError StepAction :=
  if event.object.status.phase == "Pending" then
    Except.ok (StepAction.stay
      (some ("Waiting for " ++ event.object.metadata.name ++ " to start...")))
  else
    match runningReadyOrSucceeded event.object with
    | Except.error e => Except.error e
    | Except.ok true =>
        match containerStatus0 event.object with
        | Except.error e => Except.error e
        | Except.ok c =>
            Except.ok (StepAction.openEligible event.object.metadata.name c.ready)
    | Except.ok false =>
        match deletedFailedOrWaiting event.type event.object with
        | Except.error e => Except.error e
        | Except.ok true =>
            match containerStatus0 event.object with
            | Except.error e => Except.error e
            | Except.ok c =>
                match c.state.terminated with
                | none => Except.error (PyError.attributeError
                    "NoneType object has no attribute reason")
                | some t => Except.ok (StepAction.openFailed
                    event.object.metadata.name t.reason t.message)
        | Except.ok false => Except.ok (StepAction.stay none)

/-- How the `log` watch loop ends: events exhausted without a break, a break
with `tail` bound to the pod whose log was opened, or an uncaught Python
exception raised inside the loop body. -/
inductive LoopExit where
  | finished
  | broke (podName : String)
  | raised (e : PyError)
deriving DecidableEq, Repr

/-- Runs `logStep` over the event list: collects the diagnostics emitted and
the way the loop ends. -/
def logLoop : List PodEvent → List String × LoopExit
  | [] => ([], LoopExit.finished)
  | e :: rest =>
      match logStep e with
      | Except.error err => ([], LoopExit.raised err)
      | Except.ok (StepAction.stay d) =>
          (d.toList ++ (logLoop rest).1, (logLoop rest).2)
      | Except.ok (StepAction.openEligible podName ready) =>
          (["Pod started running " ++ toString ready], LoopExit.broke podName)
      | Except.ok (StepAction.openFailed podName reason message) =>
          (["Failed to launch " ++ podName ++ ", reason: " ++ formatVal reason
              ++ ", message: " ++ formatVal message], LoopExit.broke podName)

/-- The chunk loop `for chunk in tail.stream(MAX_STREAM_BYTES)` with the
decode of each chunk: a chunk either decodes to a printed string or raises
(read failure or decode failure), in which case the loop stops there and the
error propagates after the `finally` clause releases the connection. -/
def drainChunks : List (Except PyError String) → List String × Option PyError
  | [] => ([], none)
  | Except.ok c :: rest =>
      ((c :: (drainChunks rest).1), (drainChunks rest).2)
  | Except.error e :: _ => ([], some e)

/-- Everything observable about one run of `KubeManager.log`. -/
structure LogOutcome where
  opens : List OpenCall
  printed : List String
  diagnostics : List String
  released : Nat
  streamOpened : Bool
  watchSelector : Option String
  uncaught : Option PyError
deriving DecidableEq, Repr

/-- Embeds `KubeManager.log` (manager.py lines 126-179). With
`selectors=None` the label-selector construction raises an `AttributeError`
before the watch is opened. Otherwise the watch loop runs; on a break, `tail`
holds the opened log response and the chunk loop prints each decoded chunk,
releasing the connection in a `finally` clause; an exception raised inside
the watch loop other than `ValueError` / `ApiException` escapes uncaught and
no chunk loop runs; a `ValueError` / `ApiException` ending of the stream is
caught and logged with the `name` argument, and `tail` stays empty. -/
def KubeManager.log (name ns : String)
    (selectors : Option (List (String × String)))
    (container : String) (follow : Bool) (stream : PodStream)
    (handleChunks : List (Except PyError String)) : LogOutcome :=
  match selectors with
  | none =>
      { opens := [], printed := [], diagnostics := [], released := 0,
        streamOpened := false, watchSelector := none,
        uncaught := some (PyError.attributeError
          "NoneType object has no attribute items") }
  | some sel =>
      let lss := labelSelectorStr sel
      match (logLoop stream.events).2 with
      | LoopExit.raised e =>
          { opens := [], printed := [], diagnostics := (logLoop stream.events).1,
            released := 0, streamOpened := true, watchSelector := some lss,
            uncaught := some e }
      | LoopExit.broke podName =>
          { opens := [{ podName := podName, ns := ns, follow := follow,
                        container := container }],
            printed := (drainChunks handleChunks).1,
            diagnostics := (logLoop stream.events).1,
            released := 1, streamOpened := true, watchSelector := some lss,
            uncaught := (drainChunks handleChunks).2 }
      | LoopExit.finished =>
          match stream.ending with
          | StreamEnd.ok =>
              { opens := [], printed := [],
                diagnostics := (logLoop stream.events).1,
                released := 0, streamOpened := true, watchSelector := some lss,
                uncaught := none }
          | StreamEnd.valueError m =>
              { opens := [], printed := [],
                diagnostics := (logLoop stream.events).1
                  ++ ["error getting status for " ++ name ++ " " ++ m],
                released := 0, streamOpened := true, watchSelector := some lss,
                uncaught := none }
          | StreamEnd.apiError m =>
              { opens := [], printed := [],
                diagnostics := (logLoop stream.events).1
                  ++ ["error getting status for " ++ name ++ " " ++ m],
                released := 0, streamOpened := true, watchSelector := some lss,
                uncaught := none }

/-- A pod event is log-eligible: phase Running with the first container status
ready, or phase Succeeded. -/
def eligibleSnapshot (e : PodEvent) : Bool :=
  (e.object.status.phase == "Running"
      && (match firstStatus? e.object with
          | some c => c.ready
          | none => false))
    || e.object.status.phase == "Succeeded"

/-- A pod event triggers the failure branch: DELETED, phase Failed, or the
first container status reporting a waiting state. -/
def failureSnapshot (e : PodEvent) : Bool :=
  decide (e.type = EventType.DELETED)
    || e.object.status.phase == "Failed"
    || (match firstStatus? e.object with
        | some c => c.state.waiting.isSome
        | none => false)

/-- A pod event on which the watch keeps waiting: neither eligible nor a
failure trigger, and well-formed for the branch it reaches (a Pending phase
never touches the status list; any other phase subscripts it, so the first
container status must exist). -/
def waitingSnapshot (e : PodEvent) : Bool :=
  !eligibleSnapshot e && !failureSnapshot e
    && (e.object.status.phase == "Pending" || (firstStatus? e.object).isSome)

lemma containerStatus0_ok (p : Pod) (c : ContainerStatus)
    (h : firstStatus? p = some c) : containerStatus0 p = Except.ok c := by
  unfold firstStatus? at h
  unfold containerStatus0
  cases hcs : p.status.container_statuses with
  | none => rw [hcs] at h; simp at h
  | some l =>
      cases l with
      | nil => rw [hcs] at h; simp at h
      | cons c0 tl =>
          rw [hcs] at h
          simp at h
          rw [h]

lemma logStep_stay_of_waiting (e : PodEvent) (h : waitingSnapshot e = true) :
    ∃ d, logStep e = Except.ok (StepAction.stay d) := by
  unfold waitingSnapshot at h
  cases hpend : (e.object.status.phase == "Pending") with
  | true =>
      refine ⟨some ("Waiting for " ++ e.object.metadata.name ++ " to start..."), ?_⟩
      unfold logStep
      rw [hpend]
      simp
  | false =>
      rw [hpend] at h
      simp only [Bool.or_false, Bool.and_eq_true, Bool.not_eq_true'] at h
      obtain ⟨⟨helig, hfail⟩, hwf⟩ := h
      obtain ⟨c, hc⟩ := Option.isSome_iff_exists.mp hwf
      have hc0 := containerStatus0_ok e.object c hc
      unfold eligibleSnapshot at helig
      unfold failureSnapshot at hfail
      rw [hc] at helig hfail
      simp only [Bool.or_eq_false_iff, Bool.and_eq_false_iff,
        decide_eq_false_iff_not] at helig hfail
      obtain ⟨helig1, hsucc⟩ := helig
      obtain ⟨⟨hdel, hfailp⟩, hwait⟩ := hfail
      refine ⟨none, ?_⟩
      unfold logStep runningReadyOrSucceeded deletedFailedOrWaiting
      rw [hpend]
      cases hrun : (e.object.status.phase == "Running") with
      | true =>
          have hready : c.ready = false := by
            rcases helig1 with h1 | h1
            · rw [hrun] at h1; exact absurd h1 (by simp)
            · exact h1
          simp [hrun, hc0, hready, hsucc, hdel, hfailp, hwait]
      | false =>
          simp [hrun, hc0, hsucc, hdel, hfailp, hwait]

lemma logStep_open_of_eligible (e : PodEvent) (c : ContainerStatus)
    (hc : firstStatus? e.object = some c)
    (helig : eligibleSnapshot e = true) :
    logStep e
      = Except.ok (StepAction.openEligible e.object.metadata.name c.ready) := by
  have hc0 := containerStatus0_ok e.object c hc
  unfold eligibleSnapshot at helig
  rw [hc] at helig
  simp only [Bool.or_eq_true, Bool.and_eq_true, beq_iff_eq] at helig
  unfold logStep runningReadyOrSucceeded
  rcases helig with ⟨hrun, hready⟩ | hsucc
  · rw [hrun]
    simp [hc0, hready]
  · rw [hsucc]
    simp [hc0]

lemma logLoop_finished (events : List PodEvent)
    (h : ∀ x ∈ events, waitingSnapshot x = true) :
    (logLoop events).2 = LoopExit.finished := by
  induction events with
  | nil => rfl
  | cons e rest ih =>
      obtain ⟨d, hd⟩ := logStep_stay_of_waiting e (h e (List.mem_cons_self e rest))
      unfold logLoop
      rw [hd]
      exact ih fun x hx => h x (List.mem_cons_of_mem _ hx)

lemma logLoop_broke_of_prefix (pre : List PodEvent) (e : PodEvent)
    (post : List PodEvent) (podName : String) (r : Bool)
    (hpre : ∀ x ∈ pre, waitingSnapshot x = true)
    (hstep : logStep e = Except.ok (StepAction.openEligible podName r)) :
    (logLoop (pre ++ e :: post)).2 = LoopExit.broke podName := by
  induction pre with
  | nil =>
      show (logLoop (e :: post)).2 = _
      unfold logLoop
      rw [hstep]
  | cons p ps ih =>
      obtain ⟨d, hd⟩ := logStep_stay_of_waiting p (hpre p (List.mem_cons_self p ps))
      show (logLoop (p :: (ps ++ e :: post))).2 = _
      unfold logLoop
      rw [hd]
      exact ih fun x hx => hpre x (List.mem_cons_of_mem _ hx)

/-- A MODIFIED service event whose ingress list is present but empty. -/
def svcEventEmpty : ServiceEvent :=
  { type := EventType.MODIFIED,
    object := { status := { load_balancer := { ingress := some [] } } } }

/-- A MODIFIED service event whose first ingress entry carries IP 10.0.0.5. -/
def svcEventReady : ServiceEvent :=
  { type := EventType.MODIFIED,
    object := { status := { load_balancer :=
      { ingress := some [{ ip := some "10.0.0.5", hostname := none }] } } } }

/-- Builds a pod event for the concrete witness scenarios. -/
def mkPodEvent (ty : EventType) (podName phase : String)
    (cs : Option (List ContainerStatus)) : PodEvent :=
  { type := ty,
    object := { metadata := { name := podName },
                status := { phase := phase, container_statuses := cs } } }

/-- A MODIFIED pod event in phase Pending, container statuses absent. -/
def podEventPending : PodEvent :=
  mkPodEvent EventType.MODIFIED "pod-1" "Pending" none

/-- A MODIFIED pod event: Running, first container not ready, state running. -/
def podEventRunningNotReady : PodEvent :=
  mkPodEvent EventType.MODIFIED "pod-1" "Running"
    (some [{ ready := false, state := { waiting := none, terminated := none } }])

/-- A MODIFIED pod event: Running, first container ready. -/
def podEventRunningReady : PodEvent :=
  mkPodEvent EventType.MODIFIED "pod-1" "Running"
    (some [{ ready := true, state := { waiting := none, terminated := none } }])

/-- Claim C1: over any service event sequence, the endpoint watch yields no
URL while every ingress list is empty or absent; at the first event with a
non-empty ingress list it resolves exactly once to
`http://<address>:5000/predict`, taking the first entry's IP and falling back
to its hostname when the IP is absent. -/
theorem endpoint_discovery_first_nonempty_ingress
    (name ns : String) (sel : List (String × String)) (ending : StreamEnd)
    (events pre post : List ServiceEvent) (e : ServiceEvent)
    (i0 : LoadBalancerIngress) (rest : List LoadBalancerIngress) :
    ((∀ x ∈ events, ingressReady x = false) →
      (KubeManager.get_service_external_endpoint name ns (some sel)
          ⟨events, ending⟩).result = none)
    ∧ ((∀ x ∈ pre, ingressReady x = false) →
        e.object.status.load_balancer.ingress = some (i0 :: rest) →
        ((∀ s, i0.ip = some s → s ≠ "" →
            (KubeManager.get_service_external_endpoint name ns (some sel)
                ⟨pre ++ e :: post, ending⟩).result
              = some ("http://" ++ s ++ ":5000/predict"))
          ∧ (i0.ip = none → ∀ hn, i0.hostname = some hn →
              (KubeManager.get_service_external_endpoint name ns (some sel)
                  ⟨pre ++ e :: post, ending⟩).result
                = some ("http://" ++ hn ++ ":5000/predict")))) := by
  constructor
  · intro h
    have hl := svcLoop_eq_none events h
    simp only [KubeManager.get_service_external_endpoint]
    rw [hl]
    cases ending <;> rfl
  · intro hpre hing
    have hl := svcLoop_append_first pre e post i0 rest hpre hing
    constructor
    · intro s hip hs
      simp only [KubeManager.get_service_external_endpoint]
      rw [hl]
      simp [pyOr, formatVal, hip, hs]
    · intro hip hn hhn
      simp only [KubeManager.get_service_external_endpoint]
      rw [hl]
      simp [pyOr, formatVal, hip, hhn]

/-- Witness for C1 at the spec scenario: two MODIFIED events with empty
ingress, then one with ingress IP 10.0.0.5. -/
theorem endpoint_discovery_first_nonempty_ingress_witness :
    (KubeManager.get_service_external_endpoint "svc" "default"
        (some [("app", "predictor")])
        ⟨[svcEventEmpty, svcEventEmpty, svcEventReady], StreamEnd.ok⟩).result
      = some "http://10.0.0.5:5000/predict" := by
  have h := (endpoint_discovery_first_nonempty_ingress "svc" "default"
      [("app", "predictor")] StreamEnd.ok []
      [svcEventEmpty, svcEventEmpty] [] svcEventReady
      { ip := some "10.0.0.5", hostname := none } []).2
      (by decide) (by decide)
  exact h.1 "10.0.0.5" rfl (by decide)

/-- Claim C2: when the pod event sequence reaches a log-eligible snapshot
(Running with the first container ready, or Succeeded) after only waiting
snapshots, `log` calls `read_namespaced_pod_log` exactly once — for that
snapshot's pod — and never a second time; on the prefix before that snapshot
it opens nothing. -/
theorem log_opens_exactly_one_handle
    (name ns container : String) (follow : Bool) (sel : List (String × String))
    (pre post : List PodEvent) (e : PodEvent) (c : ContainerStatus)
    (ending : StreamEnd) (chunks : List (Except PyError String))
    (hpre : ∀ x ∈ pre, waitingSnapshot x = true)
    (hc : firstStatus? e.object = some c)
    (helig : eligibleSnapshot e = true) :
    (KubeManager.log name ns (some sel) container follow
        ⟨pre ++ e :: post, ending⟩ chunks).opens
      = [{ podName := e.object.metadata.name, ns := ns, follow := follow,
           container := container }]
    ∧ (KubeManager.log name ns (some sel) container follow
        ⟨pre, ending⟩ chunks).opens = [] := by
  have hstep := logStep_open_of_eligible e c hc helig
  have hbroke := logLoop_broke_of_prefix pre e post e.object.metadata.name c.ready
    hpre hstep
  have hfin := logLoop_finished pre hpre
  constructor
  · simp only [KubeManager.log]
    rw [hbroke]
  · simp only [KubeManager.log]
    rw [hfin]
    cases ending <;> rfl

/-- Witness for C2 at the spec scenario: Pending, Pending, Running not ready,
Running ready — nothing opened on the first three events, exactly one open at
the fourth. -/
theorem log_opens_exactly_one_handle_witness :
    (KubeManager.log "job" "default" (some [("app", "x")]) "" true
        ⟨[podEventPending, podEventPending, podEventRunningNotReady,
          podEventRunningReady], StreamEnd.ok⟩ []).opens
      = [{ podName := "pod-1", ns := "default", follow := true, container := "" }]
    ∧ (KubeManager.log "job" "default" (some [("app", "x")]) "" true
        ⟨[podEventPending, podEventPending, podEventRunningNotReady],
          StreamEnd.ok⟩ []).opens = [] := by
  exact log_opens_exactly_one_handle "job" "default" "" true [("app", "x")]
      [podEventPending, podEventPending, podEventRunningNotReady] []
      podEventRunningReady
      { ready := true, state := { waiting := none, terminated := none } }
      StreamEnd.ok [] (by decide) (by decide) (by decide)

/-- A MODIFIED pod event: Running, first container in a waiting state
(CrashLoopBackOff) with no terminated state recorded. -/
def podEventCrashLoop : PodEvent :=
  mkPodEvent EventType.MODIFIED "pod-1" "Running"
    (some [{ ready := false,
             state := { waiting := some "CrashLoopBackOff", terminated := none } }])

/-- A MODIFIED pod event: Running, first container terminated (OOMKilled),
no waiting state. -/
def podEventTerminated : PodEvent :=
  mkPodEvent EventType.MODIFIED "pod-1" "Running"
    (some [{ ready := false,
             state := { waiting := none,
                        terminated := some { reason := some "OOMKilled",
                                             message := some "out of memory" } } }])

/-- Claim C3 (code bug): the failure branch is entered on a waiting container
state, but its diagnostic dereferences `state.terminated.reason`; when no
terminated state exists the watch raises an uncaught AttributeError before
`read_namespaced_pod_log` is ever called, so no diagnostic is surfaced and no
open is attempted. A container whose state is terminated (not waiting) does
not trigger the branch at all: the loop keeps consuming and never opens. -/
theorem log_waiting_state_crashes_without_open :
    (KubeManager.log "job" "default" (some [("app", "x")]) "" true
        ⟨[podEventCrashLoop], StreamEnd.ok⟩ []).opens = []
    ∧ (KubeManager.log "job" "default" (some [("app", "x")]) "" true
        ⟨[podEventCrashLoop], StreamEnd.ok⟩ []).uncaught
      = some (PyError.attributeError "NoneType object has no attribute reason")
    ∧ (KubeManager.log "job" "default" (some [("app", "x")]) "" true
        ⟨[podEventTerminated], StreamEnd.ok⟩ []).opens = []
    ∧ (KubeManager.log "job" "default" (some [("app", "x")]) "" true
        ⟨[podEventTerminated], StreamEnd.ok⟩ []).uncaught = none := by
  refine ⟨rfl, rfl, rfl, rfl⟩

/-- A DELETED pod event in phase Unknown with container statuses absent. -/
def podEventDeletedNoStatuses : PodEvent :=
  mkPodEvent EventType.DELETED "pod-1" "Unknown" none

/-- Claim C4 counterexample: a DELETED event whose snapshot carries no
container statuses is not tolerated — the state machine evaluation fails
with a TypeError on the failure branch. -/
theorem log_step_absent_statuses_cex :
    logStep podEventDeletedNoStatuses
      = Except.error (PyError.typeError "NoneType object is not subscriptable") := by
  rfl

/-- Claim C4 (amended): absence of container statuses is tolerated only on
the Pending branch of the phase dispatch; on every other branch (Running,
Succeeded, Failed, DELETED, and the waiting-state check reached by any other
phase) the evaluation fails with a TypeError from subscripting None. -/
theorem log_step_absent_statuses_only_pending (e : PodEvent)
    (habs : e.object.status.container_statuses = none) :
    (e.object.status.phase = "Pending" →
        logStep e = Except.ok (StepAction.stay
          (some ("Waiting for " ++ e.object.metadata.name ++ " to start..."))))
    ∧ (e.object.status.phase ≠ "Pending" →
        logStep e = Except.error
          (PyError.typeError "NoneType object is not subscriptable")) := by
  have hcs : containerStatus0 e.object
      = Except.error (PyError.typeError "NoneType object is not subscriptable") := by
    unfold containerStatus0
    rw [habs]
  constructor
  · intro hp
    unfold logStep
    simp [hp]
  · intro hp
    have hpend : (e.object.status.phase == "Pending") = false := by
      simp [hp]
    unfold logStep runningReadyOrSucceeded deletedFailedOrWaiting
    rw [hpend]
    cases hrun : (e.object.status.phase == "Running") with
    | true => simp [hcs]
    | false =>
        cases hsucc : (e.object.status.phase == "Succeeded") with
        | true => simp [hcs]
        | false =>
            cases hdel : (decide (e.type = EventType.DELETED)) with
            | true =>
                have : e.type = EventType.DELETED := of_decide_eq_true hdel
                simp [this, hcs]
            | false =>
                have hne : ¬ e.type = EventType.DELETED := of_decide_eq_false hdel
                cases hfailp : (e.object.status.phase == "Failed") with
                | true => simp [hne, hfailp, hcs]
                | false => simp [hne, hfailp, hcs]

/-- Witness for C4 (amended): the Pending event with absent statuses is
tolerated; the same snapshot in phase Running fails with a TypeError. -/
theorem log_step_absent_statuses_only_pending_witness :
    logStep podEventPending
      = Except.ok (StepAction.stay (some "Waiting for pod-1 to start..."))
    ∧ logStep (mkPodEvent EventType.MODIFIED "pod-1" "Running" none)
      = Except.error (PyError.typeError "NoneType object is not subscriptable") := by
  constructor
  · exact (log_step_absent_statuses_only_pending podEventPending rfl).1 rfl
  · exact (log_step_absent_statuses_only_pending
      (mkPodEvent EventType.MODIFIED "pod-1" "Running" none) rfl).2 (by decide)

/-- Claim C5: whenever `log` opens a log handle (its break branches), the
connection is released exactly once — the chunk loop runs under a finally
clause — whether the chunk sequence drains fully or a read or decode raises;
when no handle is opened, no release happens. -/
theorem log_handle_released_exactly_once
    (name ns container : String) (follow : Bool)
    (selectors : Option (List (String × String))) (stream : PodStream)
    (chunks : List (Except PyError String)) :
    ((KubeManager.log name ns selectors container follow stream chunks).opens ≠ [] →
        (KubeManager.log name ns selectors container follow stream chunks).released
          = 1)
    ∧ ((KubeManager.log name ns selectors container follow stream chunks).opens = [] →
        (KubeManager.log name ns selectors container follow stream chunks).released
          = 0) := by
  cases selectors with
  | none => simp [KubeManager.log]
  | some sel =>
      cases hexit : (logLoop stream.events).2 with
      | finished =>
          cases hend : stream.ending <;>
            simp [KubeManager.log, hexit, hend]
      | broke podName => simp [KubeManager.log, hexit]
      | raised err => simp [KubeManager.log, hexit]

/-- Witness for C5: a run that opens a handle on a ready pod, with one good
chunk followed by a failing read, releases exactly once. -/
theorem log_handle_released_exactly_once_witness :
    (KubeManager.log "job" "default" (some [("app", "x")]) "" true
        ⟨[podEventRunningReady], StreamEnd.ok⟩
        [Except.ok "line", Except.error (PyError.unicodeDecodeError "bad byte")]).released = 1 := by
  exact (log_handle_released_exactly_once "job" "default" "" true
      (some [("app", "x")]) ⟨[podEventRunningReady], StreamEnd.ok⟩
      [Except.ok "line", Except.error (PyError.unicodeDecodeError "bad byte")]).1 (by decide)

/-- Lexicographic comparison of char lists by code point, used to state the
sorted-keys serialization the spec prescribes. -/
def charListLe : List Char → List Char → Bool
  | [], _ => true
  | _ :: _, [] => false
  | a :: as, b :: bs =>
      if a.toNat < b.toNat then true
      else if b.toNat < a.toNat then false
      else charListLe as bs

/-- Lexicographic comparison of strings by code point. -/
def strLe (a b : String) : Bool := charListLe a.data b.data

/-- Inserts a selector pair into a key-sorted list. -/
def insertByKey (p : String × String) :
    List (String × String) → List (String × String)
  | [] => [p]
  | q :: qs => if strLe p.1 q.1 then p :: q :: qs else q :: insertByKey p qs

/-- Sorts selector pairs by key. -/
def sortByKey (l : List (String × String)) : List (String × String) :=
  l.foldr insertByKey []

/-- Modelled from the spec: the label-selector string as the spec words it —
`key=value` pairs joined by a comma, serialized deterministically with sorted
keys (spec sections 6 and 9). Stated only for comparison against
`labelSelectorStr`, which embeds the construction in the source. -/
def specSelectorStr (l : List (String × String)) : String :=
  String.intercalate "," ((sortByKey l).map fun kv => kv.1 ++ "=" ++ kv.2)

/-- Claim C6 counterexample: at the selector mapping {b: 1, a: 2} both watch
operations hand the stream "b=1, a=2" — comma-space separated, in mapping
order — not the sorted comma-joined "a=2,b=1" the claim prescribes. -/
theorem label_selector_sorted_cex :
    (KubeManager.get_service_external_endpoint "svc" "default"
        (some [("b", "1"), ("a", "2")]) ⟨[], StreamEnd.ok⟩).watchSelector
      ≠ some (specSelectorStr [("b", "1"), ("a", "2")])
    ∧ (KubeManager.log "job" "default" (some [("b", "1"), ("a", "2")]) "" true
        ⟨[], StreamEnd.ok⟩ []).watchSelector
      ≠ some (specSelectorStr [("b", "1"), ("a", "2")])
    ∧ (KubeManager.get_service_external_endpoint "svc" "default"
        (some [("b", "1"), ("a", "2")]) ⟨[], StreamEnd.ok⟩).watchSelector
      = some "b=1, a=2"
    ∧ specSelectorStr [("b", "1"), ("a", "2")] = "a=2,b=1" := by
  refine ⟨by decide, by decide, rfl, rfl⟩

/-- Claim C6 (amended): both watch operations build the label-selector string
sent to the event stream as the selector's key=value pairs joined by
comma-space, in the iteration order of the mapping; the keys are not
sorted. -/
theorem label_selector_comma_space_unsorted
    (name ns container : String) (follow : Bool) (sel : List (String × String))
    (sstream : ServiceStream) (pstream : PodStream)
    (chunks : List (Except PyError String)) :
    (KubeManager.get_service_external_endpoint name ns (some sel)
        sstream).watchSelector
      = some (String.intercalate ", " (sel.map fun kv => kv.1 ++ "=" ++ kv.2))
    ∧ (KubeManager.log name ns (some sel) container follow pstream
        chunks).watchSelector
      = some (String.intercalate ", " (sel.map fun kv => kv.1 ++ "=" ++ kv.2)) := by
  constructor
  · cases hr : svcLoop sstream.events with
    | some url =>
        simp [KubeManager.get_service_external_endpoint, labelSelectorStr, hr]
    | none =>
        cases hend : sstream.ending <;>
          simp [KubeManager.get_service_external_endpoint, labelSelectorStr,
            hr, hend]
  · cases hexit : (logLoop pstream.events).2 with
    | finished =>
        cases hend : pstream.ending <;>
          simp [KubeManager.log, labelSelectorStr, hexit, hend]
    | broke podName => simp [KubeManager.log, labelSelectorStr, hexit]
    | raised err => simp [KubeManager.log, labelSelectorStr, hexit]

/-- Claim C7: when the event stream raises a ValueError or an ApiException
and no earlier event has resolved the watch, both operations catch the error
at the watch boundary, log a diagnostic built from the name argument, and end
without a result — no URL, no opens, no printed chunks — and no exception
escapes the method. -/
theorem watch_errors_caught_at_boundary
    (name ns container : String) (follow : Bool) (sel : List (String × String))
    (sevents : List ServiceEvent) (pevents : List PodEvent) (m : String)
    (ending : StreamEnd) (chunks : List (Except PyError String))
    (hs : ∀ x ∈ sevents, ingressReady x = false)
    (hp : ∀ x ∈ pevents, waitingSnapshot x = true)
    (hend : ending = StreamEnd.valueError m ∨ ending = StreamEnd.apiError m) :
    (KubeManager.get_service_external_endpoint name ns (some sel)
        ⟨sevents, ending⟩).result = none
    ∧ (KubeManager.get_service_external_endpoint name ns (some sel)
        ⟨sevents, ending⟩).uncaught = none
    ∧ ("error getting status for " ++ name ++ " " ++ m)
        ∈ (KubeManager.get_service_external_endpoint name ns (some sel)
            ⟨sevents, ending⟩).diagnostics
    ∧ (KubeManager.log name ns (some sel) container follow
        ⟨pevents, ending⟩ chunks).opens = []
    ∧ (KubeManager.log name ns (some sel) container follow
        ⟨pevents, ending⟩ chunks).printed = []
    ∧ (KubeManager.log name ns (some sel) container follow
        ⟨pevents, ending⟩ chunks).uncaught = none
    ∧ ("error getting status for " ++ name ++ " " ++ m)
        ∈ (KubeManager.log name ns (some sel) container follow
            ⟨pevents, ending⟩ chunks).diagnostics := by
  have hsvc := svcLoop_eq_none sevents hs
  have hfin := logLoop_finished pevents hp
  rcases hend with h | h <;> subst h <;>
    simp [KubeManager.get_service_external_endpoint, KubeManager.log, hsvc, hfin]

/-- Witness for C7: one empty-ingress service event and one Pending pod event
followed by a ValueError ending. -/
theorem watch_errors_caught_at_boundary_witness :
    (KubeManager.get_service_external_endpoint "job" "default"
        (some [("app", "x")])
        ⟨[svcEventEmpty], StreamEnd.valueError "boom"⟩).result = none
    ∧ (KubeManager.log "job" "default" (some [("app", "x")]) "" true
        ⟨[podEventPending], StreamEnd.valueError "boom"⟩ []).opens = [] := by
  have h := watch_errors_caught_at_boundary "job" "default" "" true
      [("app", "x")] [svcEventEmpty] [podEventPending] "boom"
      (StreamEnd.valueError "boom") [] (by decide) (by decide) (Or.inl rfl)
  exact ⟨h.1, h.2.2.2.1⟩

/-- A `client.rest.ApiException` raised by the Kubernetes API client. -/
structure ApiException where
  msg : String
deriving DecidableEq, Repr

/-- Embeds `KubeManager.create_tf_job` (manager.py lines 24-37): the custom
object creation is returned unchanged on success; an `ApiException` is
re-raised as a `RuntimeError` naming the expected TFJob CRD version. The
version constant lives in `fairing.constants`, outside the embedded file, so
it is a parameter here; the message text, including its typo, is the
source's. -/
def KubeManager.create_tf_job {R : Type} (tfJobVersion : String)
    (apiResult : Except ApiException R) : Except String R :=
  match apiResult with
  | Except.ok r => Except.ok r
  | Except.error _ => Except.error
      ("Failed to create TFJob. Perhaps the CRD TFJob version "
        ++ tfJobVersion ++ " in not installed?")

/-- Embeds `KubeManager.create_kfserving` (manager.py lines 55-67): same
shape as `create_tf_job`, naming the KFServing CRD version. -/
def KubeManager.create_kfserving {R : Type} (kfservingVersion : String)
    (apiResult : Except ApiException R) : Except String R :=
  match apiResult with
  | Except.ok r => Except.ok r
  | Except.error _ => Except.error
      ("Failed to create KFService. Perhaps the CRD KFServing version "
        ++ kfservingVersion ++ " is not installed?")

/-- Claim C8: when the API rejects a custom-resource creation, both
`create_tf_job` and `create_kfserving` raise a re-classified error whose
message names the expected CRD version; the raw exception's content does not
reach the caller (two distinct exceptions yield the same error); a successful
API result is returned unchanged. -/
theorem create_crd_error_reclassified (R : Type) (tfv kfv : String)
    (e1 e2 : ApiException) (r1 r2 : R) :
    (∃ p s, KubeManager.create_tf_job tfv
        (Except.error e1 : Except ApiException R) = Except.error (p ++ tfv ++ s))
    ∧ KubeManager.create_tf_job tfv (Except.error e1 : Except ApiException R)
      = KubeManager.create_tf_job tfv (Except.error e2)
    ∧ KubeManager.create_tf_job tfv (Except.ok r1) = Except.ok r1
    ∧ (∃ p s, KubeManager.create_kfserving kfv
        (Except.error e1 : Except ApiException R) = Except.error (p ++ kfv ++ s))
    ∧ KubeManager.create_kfserving kfv (Except.error e1 : Except ApiException R)
      = KubeManager.create_kfserving kfv (Except.error e2)
    ∧ KubeManager.create_kfserving kfv (Except.ok r2) = Except.ok r2 := by
  refine ⟨⟨"Failed to create TFJob. Perhaps the CRD TFJob version ",
      " in not installed?", rfl⟩, rfl, rfl,
    ⟨"Failed to create KFService. Perhaps the CRD KFServing version ",
      " is not installed?", rfl⟩, rfl, rfl⟩

/-- Claim C9: the name argument feeds only the error-diagnostic text: every
other observable of both operations — the URL, the watch selector, the opens,
the printed chunks, the release count, the uncaught exception — is identical
for any two names over the same event streams. -/
theorem name_arg_noninterference (n1 n2 ns container : String) (follow : Bool)
    (selectors : Option (List (String × String)))
    (sstream : ServiceStream) (pstream : PodStream)
    (chunks : List (Except PyError String)) :
    ((KubeManager.get_service_external_endpoint n1 ns selectors sstream).result
      = (KubeManager.get_service_external_endpoint n2 ns selectors sstream).result)
    ∧ ((KubeManager.get_service_external_endpoint n1 ns selectors
          sstream).streamOpened
      = (KubeManager.get_service_external_endpoint n2 ns selectors
          sstream).streamOpened)
    ∧ ((KubeManager.get_service_external_endpoint n1 ns selectors
          sstream).watchSelector
      = (KubeManager.get_service_external_endpoint n2 ns selectors
          sstream).watchSelector)
    ∧ ((KubeManager.get_service_external_endpoint n1 ns selectors sstream).uncaught
      = (KubeManager.get_service_external_endpoint n2 ns selectors sstream).uncaught)
    ∧ ((KubeManager.log n1 ns selectors container follow pstream chunks).opens
      = (KubeManager.log n2 ns selectors container follow pstream chunks).opens)
    ∧ ((KubeManager.log n1 ns selectors container follow pstream chunks).printed
      = (KubeManager.log n2 ns selectors container follow pstream chunks).printed)
    ∧ ((KubeManager.log n1 ns selectors container follow pstream chunks).released
      = (KubeManager.log n2 ns selectors container follow pstream chunks).released)
    ∧ ((KubeManager.log n1 ns selectors container follow pstream
          chunks).streamOpened
      = (KubeManager.log n2 ns selectors container follow pstream
          chunks).streamOpened)
    ∧ ((KubeManager.log n1 ns selectors container follow pstream
          chunks).watchSelector
      = (KubeManager.log n2 ns selectors container follow pstream
          chunks).watchSelector)
    ∧ ((KubeManager.log n1 ns selectors container follow pstream chunks).uncaught
      = (KubeManager.log n2 ns selectors container follow pstream
          chunks).uncaught) := by
  cases selectors with
  | none => exact ⟨rfl, rfl, rfl, rfl, rfl, rfl, rfl, rfl, rfl, rfl⟩
  | some sel =>
      refine ⟨?_, ?_, ?_, ?_, ?_, ?_, ?_, ?_, ?_, ?_⟩ <;>
        first
        | (cases hr : svcLoop sstream.events with
            | some url => simp [KubeManager.get_service_external_endpoint, hr]
            | none =>
                cases hend : sstream.ending <;>
                  simp [KubeManager.get_service_external_endpoint, hr, hend])
        | (cases hexit : (logLoop pstream.events).2 with
            | finished =>
                cases hend : pstream.ending <;>
                  simp [KubeManager.log, hexit, hend]
            | broke podName => simp [KubeManager.log, hexit]
            | raised err => simp [KubeManager.log, hexit])

lemma intercalate_nil (s : String) : s.intercalate [] = "" := rfl

/-- Claim C10: with the selectors argument left at its default None, both
operations fail with an AttributeError while building the label-selector
string, before the event stream is opened; with an explicit empty mapping
they proceed and open the stream scoped by the empty selector string — the
documented non-empty-selector precondition is never validated. -/
theorem selectors_none_fails_before_stream
    (name ns container : String) (follow : Bool)
    (sstream : ServiceStream) (pstream : PodStream)
    (chunks : List (Except PyError String)) :
    ((KubeManager.get_service_external_endpoint name ns none sstream).uncaught
        = some (PyError.attributeError "NoneType object has no attribute items")
      ∧ (KubeManager.get_service_external_endpoint name ns none
          sstream).streamOpened = false
      ∧ (KubeManager.get_service_external_endpoint name ns none sstream).result
        = none)
    ∧ ((KubeManager.log name ns none container follow pstream chunks).uncaught
        = some (PyError.attributeError "NoneType object has no attribute items")
      ∧ (KubeManager.log name ns none container follow pstream
          chunks).streamOpened = false
      ∧ (KubeManager.log name ns none container follow pstream chunks).opens
        = [])
    ∧ ((KubeManager.get_service_external_endpoint name ns (some []) sstream).streamOpened = true
      ∧ (KubeManager.get_service_external_endpoint name ns (some []) sstream).watchSelector = some ""
      ∧ (KubeManager.log name ns (some []) container follow pstream chunks).streamOpened = true
      ∧ (KubeManager.log name ns (some []) container follow pstream chunks).watchSelector = some "") := by
  refine ⟨⟨rfl, rfl, rfl⟩, ⟨rfl, rfl, rfl⟩, ?_, ?_, ?_, ?_⟩
  · cases hr : svcLoop sstream.events with
    | some url => simp [KubeManager.get_service_external_endpoint, hr]
    | none =>
        cases hend : sstream.ending <;>
          simp [KubeManager.get_service_external_endpoint, hr, hend]
  · cases hr : svcLoop sstream.events with
    | some url =>
        simp [KubeManager.get_service_external_endpoint, labelSelectorStr, intercalate_nil, hr]
    | none =>
        cases hend : sstream.ending <;>
          simp [KubeManager.get_service_external_endpoint, labelSelectorStr,
            intercalate_nil, hr, hend]
  · cases hexit : (logLoop pstream.events).2 with
    | finished =>
        cases hend : pstream.ending <;> simp [KubeManager.log, hexit, hend]
    | broke podName => simp [KubeManager.log, hexit]
    | raised err => simp [KubeManager.log, hexit]
  · cases hexit : (logLoop pstream.events).2 with
    | finished =>
        cases hend : pstream.ending <;>
          simp [KubeManager.log, labelSelectorStr, intercalate_nil, hexit, hend]
    | broke podName => simp [KubeManager.log, labelSelectorStr, intercalate_nil, hexit]
    | raised err => simp [KubeManager.log, labelSelectorStr, intercalate_nil, hexit]
